import Mathlib

/-!
Shallow embedding of `src/posts.py` (whitedevil1208/userposts): a FastAPI
CRUD service over two SQLAlchemy tables, `userposts` and `userpostsmapping`.

The database session is modelled as an explicit state value `DB` holding the
two tables as lists in insertion order, together with the autoincrement
counter for mapping ids.  Each route becomes a pure function from the request
and the state to a pair of (result, next state); `raise HTTPException`
becomes an `Except.error` result, returned together with the unchanged state
(the Python code raises before performing any mutation).  `datetime.utcnow`
is modelled by passing the current timestamp as an explicit argument.
JSON response bodies are modelled by an inductive `Json` type.
-/

namespace UserPosts

/-- A point in time, as produced by `datetime.utcnow()`.  Only its
`isoformat()` rendering is observable through the API, so the model keeps
exactly that: an arbitrary string (which may or may not already carry an
offset suffix). -/
structure Timestamp where
  iso : String
deriving DecidableEq, Repr

/-- Row of the `userposts` table (class `UserPost` in `posts.py`). -/
structure UserPost where
  id : String
  user_id : String
  content : String
  media_url : Option String
  created_at : Timestamp
  updated_at : Timestamp
deriving DecidableEq, Repr

/-- Row of the `userpostsmapping` table (class `UserPostMapping` in
`posts.py`).  `id` is the autoincrement integer primary key. -/
structure UserPostMapping where
  id : Nat
  user_id : String
  post_id : String
  comments : Option String
  liked : Bool
  disliked : Bool
  created_at : Timestamp
  updated_at : Timestamp
deriving DecidableEq, Repr

/-- Request schema `UserPostCreate`. -/
structure UserPostCreate where
  id : String
  user_id : String
  content : String
  media_url : Option String
deriving DecidableEq, Repr

/-- Request schema `UserPostMappingCreate`. -/
structure UserPostMappingCreate where
  post_id : String
  user_id : String
  comments : Option String
  liked : Bool
  disliked : Bool
deriving DecidableEq, Repr

/-- `raise HTTPException(status_code, detail)`. -/
structure HTTPException where
  status_code : Nat
  detail : String
deriving DecidableEq, Repr

/-- JSON values, for the response bodies. -/
inductive Json where
  | null : Json
  | str : String → Json
  | nat : Nat → Json
  | bool : Bool → Json
  | arr : List Json → Json
  | obj : List (String × Json) → Json
deriving Repr

/-- The database state: both tables in insertion order, plus the sequence
backing the autoincrement primary key of `userpostsmapping`. -/
structure DB where
  posts : List UserPost
  mappings : List UserPostMapping
  next_mapping_id : Nat
deriving Repr

/-- The freshly created (empty) database. -/
def emptyDB : DB := ⟨[], [], 1⟩

/-- An optional string column rendered into JSON (`None` → `null`). -/
def optJson : Option String → Json
  | none => Json.null
  | some s => Json.str s

/-- Python's `str(b).lower()` on a boolean `b`. -/
def pyBoolStr (b : Bool) : String := if b then "true" else "false"

/-- `POST /posts/` (`create_post` in `posts.py`): pre-check for an existing
post with the same id (`db.query(UserPost).filter_by(id=post.id).first()`),
raise 400 if found; otherwise insert the row and return the envelope. -/
def create_post (now : Timestamp) (post : UserPostCreate) (db : DB) :
    Except HTTPException Json × DB :=
  if (db.posts.find? (fun q => q.id == post.id)).isSome then
    (Except.error ⟨400, "Post with this ID already exists"⟩, db)
  else
    let db_post : UserPost :=
      ⟨post.id, post.user_id, post.content, post.media_url, now, now⟩
    (Except.ok (Json.obj [
        ("status", Json.str "published"),
        ("message", Json.str "Post created successfully."),
        ("data", Json.arr [Json.obj [
            ("id", Json.str db_post.id),
            ("userId", Json.str db_post.user_id),
            ("content", Json.str db_post.content),
            ("imageUrl", optJson db_post.media_url),
            ("userPostmapping", Json.arr []),
            ("createdAt", Json.str (db_post.created_at.iso ++ "Z"))]])]),
     ⟨db.posts ++ [db_post], db.mappings, db.next_mapping_id⟩)

/-- `GET /posts/` (`list_posts` in `posts.py`): every stored post in storage
order, each with the mappings of the `post.mappings` relationship (the rows
of `userpostsmapping` whose `post_id` equals the post's id) nested under
`userPostmapping`. -/
def list_posts (db : DB) : Json :=
  Json.obj [
    ("status", Json.str "published"),
    ("message", Json.str "Posts fetched successfully."),
    ("data", Json.arr (db.posts.map (fun post =>
      Json.obj [
        ("id", Json.str post.id),
        ("userId", Json.str post.user_id),
        ("content", Json.str post.content),
        ("imageUrl", optJson post.media_url),
        ("userPostmapping", Json.arr
          ((db.mappings.filter (fun m => m.post_id == post.id)).map (fun m =>
            Json.obj [
              ("id", Json.nat m.id),
              ("post_id", Json.str m.post_id),
              ("comments", optJson m.comments),
              ("like", Json.str (pyBoolStr m.liked)),
              ("dislike", Json.bool m.disliked)]))),
        ("createdAt", Json.str (post.created_at.iso ++ "Z"))])))]

/-- `POST /posts/response/` (`add_post_response` in `posts.py`): look up the
referenced post, raise 404 if absent; otherwise insert the mapping row (the
autoincrement key assigns the next integer id) and return the envelope. -/
def add_post_response (now : Timestamp) (response : UserPostMappingCreate)
    (db : DB) : Except HTTPException Json × DB :=
  match db.posts.find? (fun p => p.id == response.post_id) with
  | none => (Except.error ⟨404, "Post not found"⟩, db)
  | some _ =>
    let db_map : UserPostMapping :=
      ⟨db.next_mapping_id, response.user_id, response.post_id,
       response.comments, response.liked, response.disliked, now, now⟩
    (Except.ok (Json.obj [
        ("status", Json.str "published"),
        ("message", Json.str "User response added successfully."),
        ("data", Json.arr [Json.obj [
            ("id", Json.nat db_map.id),
            ("post_id", Json.str db_map.post_id),
            ("comments", optJson db_map.comments),
            ("like", Json.str (pyBoolStr db_map.liked)),
            ("dislike", Json.bool db_map.disliked)]])]),
     ⟨db.posts, db.mappings ++ [db_map], db.next_mapping_id + 1⟩)

/-- `DELETE /posts/{post_id}` (`delete_post` in `posts.py`): look up the
post, raise 404 if absent; otherwise `db.delete(post)` removes the row, and
the `cascade="all, delete-orphan"` relationship removes every mapping row
whose `post_id` references it, in the same transaction. -/
def delete_post (post_id : String) (db : DB) : Except HTTPException Json × DB :=
  match db.posts.find? (fun p => p.id == post_id) with
  | none => (Except.error ⟨404, "Post not found"⟩, db)
  | some _ =>
    (Except.ok (Json.obj [
        ("status", Json.str "deleted"),
        ("message", Json.str "Post deleted successfully.")]),
     ⟨db.posts.eraseP (fun p => p.id == post_id),
      db.mappings.filter (fun m => !(m.post_id == post_id)),
      db.next_mapping_id⟩)

/-- Field lookup in a JSON object (first binding wins, as in a Python dict
built from distinct literal keys). -/
def Json.lookup : Json → String → Option Json
  | Json.obj kvs, k => (kvs.find? (fun kv => kv.1 == k)).map (fun kv => kv.2)
  | _, _ => none

/-- The `data` list of a response envelope. -/
def dataList (j : Json) : List Json :=
  match j.lookup "data" with
  | some (Json.arr l) => l
  | _ => []

/-- The `userPostmapping` list of a serialized post object. -/
def umList (j : Json) : List Json :=
  match j.lookup "userPostmapping" with
  | some (Json.arr l) => l
  | _ => []

/-- States reachable from the empty database by the exposed operations
(`list_posts` reads the state without changing it, so it contributes no
transition; the error branches return the state unchanged and are covered
by the same constructors). -/
inductive Reachable : DB → Prop where
  | empty : Reachable emptyDB
  | step_create (db : DB) (now : Timestamp) (p : UserPostCreate) :
      Reachable db → Reachable (create_post now p db).2
  | step_mapping (db : DB) (now : Timestamp) (r : UserPostMappingCreate) :
      Reachable db → Reachable (add_post_response now r db).2
  | step_delete (db : DB) (post_id : String) :
      Reachable db → Reachable (delete_post post_id db).2

/-- Referential integrity: every stored mapping's `post_id` references a
stored post. -/
def refIntegrityB (db : DB) : Bool :=
  db.mappings.all (fun m => db.posts.any (fun p => p.id == m.post_id))

/-! Concrete sample values, used by witness theorems (mirroring the worked
example in the spec: post `p1` by `u1`, then a like by `u2`). -/

/-- A sample timestamp. -/
def t0 : Timestamp := ⟨"2024-01-01T00:00:00"⟩

/-- Sample create-post request `{id:"p1", user_id:"u1", content:"hello"}`. -/
def pc1 : UserPostCreate := ⟨"p1", "u1", "hello", none⟩

/-- Sample mapping request `{post_id:"p1", user_id:"u2", liked:true}`. -/
def mc1 : UserPostMappingCreate := ⟨"p1", "u2", none, true, false⟩

/-- State after creating post `p1` in the empty database. -/
def db1 : DB := (create_post t0 pc1 emptyDB).2

/-- State after additionally recording `u2`'s like on `p1`. -/
def db2 : DB := (add_post_response t0 mc1 db1).2

/-! ### Theorems -/

/-- **C3.** If a post with the requested id already exists, `create_post`
fails with the 400 Conflict error raised by the existence pre-check, and the
returned state is the input state: the original post and all mappings are
exactly as before the call. -/
theorem create_post_conflict (now : Timestamp) (post : UserPostCreate)
    (db : DB) (h : (db.posts.find? (fun q => q.id == post.id)).isSome) :
    create_post now post db =
      (Except.error ⟨400, "Post with this ID already exists"⟩, db) := by
  simp [create_post, h]

/-- Witness for C3: creating `p1` again in `db2` fails with 400 and leaves
the state untouched. -/
theorem create_post_conflict_witness :
    create_post t0 pc1 db2 =
      (Except.error ⟨400, "Post with this ID already exists"⟩, db2) :=
  create_post_conflict t0 pc1 db2 (by decide)

/-- **C4.** If no post with the requested id exists, `create_post` succeeds
and returns the envelope with status `"published"` and a single-element data
list whose element carries the input's id, user id, content and media url
under the keys `id`, `userId`, `content`, `imageUrl`, with `userPostmapping`
the empty list (and `createdAt` the timestamp rendering). -/
theorem create_post_success (now : Timestamp) (post : UserPostCreate)
    (db : DB) (h : db.posts.find? (fun q => q.id == post.id) = none) :
    (create_post now post db).1 = Except.ok (Json.obj [
        ("status", Json.str "published"),
        ("message", Json.str "Post created successfully."),
        ("data", Json.arr [Json.obj [
            ("id", Json.str post.id),
            ("userId", Json.str post.user_id),
            ("content", Json.str post.content),
            ("imageUrl", optJson post.media_url),
            ("userPostmapping", Json.arr []),
            ("createdAt", Json.str (now.iso ++ "Z"))]])]) := by
  simp [create_post, h]

/-- Witness for C4: creating `p1` in the empty database returns exactly the
envelope of the spec's worked example. -/
theorem create_post_success_witness :
    (create_post t0 pc1 emptyDB).1 = Except.ok (Json.obj [
        ("status", Json.str "published"),
        ("message", Json.str "Post created successfully."),
        ("data", Json.arr [Json.obj [
            ("id", Json.str "p1"),
            ("userId", Json.str "u1"),
            ("content", Json.str "hello"),
            ("imageUrl", Json.null),
            ("userPostmapping", Json.arr []),
            ("createdAt", Json.str "2024-01-01T00:00:00Z")]])]) :=
  create_post_success t0 pc1 emptyDB rfl

/-- **C5.** If no post with the requested `post_id` exists,
`add_post_response` fails with the 404 NotFound error and the returned state
is the input state: no mapping is persisted on this error path. -/
theorem add_post_response_notfound (now : Timestamp)
    (r : UserPostMappingCreate) (db : DB)
    (h : db.posts.find? (fun p => p.id == r.post_id) = none) :
    add_post_response now r db = (Except.error ⟨404, "Post not found"⟩, db) := by
  simp [add_post_response, h]

/-- Witness for C5: a mapping referencing the absent post `ghost` fails with
404 in `db2` and persists nothing. -/
theorem add_post_response_notfound_witness :
    add_post_response t0 ⟨"ghost", "u2", none, true, false⟩ db2 =
      (Except.error ⟨404, "Post not found"⟩, db2) :=
  add_post_response_notfound t0 ⟨"ghost", "u2", none, true, false⟩ db2 (by decide)

/-- **C10.** `create_post` imposes no non-emptiness or minimum-length check
on `content`: for any state in which the id is unused, a request whose
content is the empty string succeeds, the empty string is returned under the
`content` key as-is, and the stored row holds the empty string. -/
theorem create_post_empty_content (now : Timestamp) (post : UserPostCreate)
    (db : DB) (hid : db.posts.find? (fun q => q.id == post.id) = none)
    (hc : post.content = "") :
    (∃ j, (create_post now post db).1 = Except.ok j
        ∧ (dataList j).map (fun e => e.lookup "content")
            = [some (Json.str "")])
    ∧ (create_post now post db).2.posts
        = db.posts ++ [⟨post.id, post.user_id, "", post.media_url, now, now⟩] := by
  refine ⟨⟨_, create_post_success now post db hid, ?_⟩, ?_⟩
  · simp [dataList, Json.lookup, hc]
  · simp [create_post, hid, hc]

/-- Witness for C10: an empty-content post `p2` is accepted on top of `db2`
and stored with empty content. -/
theorem create_post_empty_content_witness :
    (∃ j, (create_post t0 ⟨"p2", "u1", "", none⟩ db2).1 = Except.ok j
        ∧ (dataList j).map (fun e => e.lookup "content")
            = [some (Json.str "")])
    ∧ (create_post t0 ⟨"p2", "u1", "", none⟩ db2).2.posts
        = db2.posts ++ [⟨"p2", "u1", "", none, t0, t0⟩] :=
  create_post_empty_content t0 ⟨"p2", "u1", "", none⟩ db2 (by decide) rfl

/-- **C6.** `list_posts` returns every stored post, in insertion order, each
shaped with keys `id`, `userId`, `content`, `imageUrl`, `userPostmapping`,
`createdAt`, where `userPostmapping` holds exactly the mappings whose
`post_id` equals that post's id (each shaped as
`{id, post_id, comments, like, dislike}`), as the second conjunct makes
precise for the filter used in the rendering. -/
theorem list_posts_spec (db : DB) :
    list_posts db = Json.obj [
      ("status", Json.str "published"),
      ("message", Json.str "Posts fetched successfully."),
      ("data", Json.arr (db.posts.map (fun post =>
        Json.obj [
          ("id", Json.str post.id),
          ("userId", Json.str post.user_id),
          ("content", Json.str post.content),
          ("imageUrl", optJson post.media_url),
          ("userPostmapping", Json.arr
            ((db.mappings.filter (fun m => m.post_id == post.id)).map (fun m =>
              Json.obj [
                ("id", Json.nat m.id),
                ("post_id", Json.str m.post_id),
                ("comments", optJson m.comments),
                ("like", Json.str (pyBoolStr m.liked)),
                ("dislike", Json.bool m.disliked)]))),
          ("createdAt", Json.str (post.created_at.iso ++ "Z"))])))]
    ∧ ∀ (p : UserPost) (m : UserPostMapping),
        m ∈ db.mappings.filter (fun m => m.post_id == p.id)
          ↔ m ∈ db.mappings ∧ m.post_id = p.id := by
  refine ⟨rfl, fun p m => ?_⟩
  simp [List.mem_filter]

/-- Witness for C6: the rendering of `db2` (post `p1` with `u2`'s like), and
the filter characterisation at its concrete mapping row. -/
theorem list_posts_spec_witness :
    list_posts db2 = Json.obj [
      ("status", Json.str "published"),
      ("message", Json.str "Posts fetched successfully."),
      ("data", Json.arr [Json.obj [
          ("id", Json.str "p1"),
          ("userId", Json.str "u1"),
          ("content", Json.str "hello"),
          ("imageUrl", Json.null),
          ("userPostmapping", Json.arr [Json.obj [
              ("id", Json.nat 1),
              ("post_id", Json.str "p1"),
              ("comments", Json.null),
              ("like", Json.str "true"),
              ("dislike", Json.bool false)]]),
          ("createdAt", Json.str "2024-01-01T00:00:00Z")]])] := by
  rw [(list_posts_spec db2).1]; rfl

/-- **C7.** Every serialized mapping renders the stored boolean `liked`
under the key `"like"` as the lowercase string `"true"`/`"false"`, and the
stored boolean `disliked` under the key `"dislike"` as a boolean, unchanged:
first for the `userPostmapping` entries of the List Posts response, then for
the data entry of the Create Mapping success envelope. -/
theorem mapping_like_dislike_serialization (db : DB) (now : Timestamp)
    (r : UserPostMappingCreate) :
    (∀ p ∈ db.posts, ∀ m ∈ db.mappings, m.post_id = p.id →
      ∃ e ∈ dataList (list_posts db),
        e.lookup "id" = some (Json.str p.id)
        ∧ ∃ me ∈ umList e,
            me.lookup "id" = some (Json.nat m.id)
            ∧ me.lookup "like"
                = some (Json.str (if m.liked then "true" else "false"))
            ∧ me.lookup "dislike" = some (Json.bool m.disliked))
    ∧ (∀ j db', add_post_response now r db = (Except.ok j, db') →
        ∀ me ∈ dataList j,
          ∃ m ∈ db'.mappings,
            me.lookup "like"
                = some (Json.str (if m.liked then "true" else "false"))
            ∧ me.lookup "dislike" = some (Json.bool m.disliked)) := by
  constructor
  · intro p hp m hm hpid
    refine ⟨_, List.mem_map_of_mem _ hp, rfl, ?_⟩
    refine ⟨_, List.mem_map_of_mem _ ?_, rfl, rfl, rfl⟩
    exact List.mem_filter.mpr ⟨hm, by simp [hpid]⟩
  · intro j db' heq me hme
    unfold add_post_response at heq
    cases hfind : db.posts.find? (fun p => p.id == r.post_id) with
    | none => rw [hfind] at heq; exact absurd (congrArg Prod.fst heq) (by simp)
    | some post =>
      rw [hfind] at heq
      cases heq
      simp only [dataList, Json.lookup] at hme
      simp at hme
      subst hme
      exact ⟨_, List.mem_append_right _ (List.mem_singleton.mpr rfl),
        rfl, rfl⟩

/-- Witness for C7: in `db2`, the serialized like of `u2` on `p1` appears as
`like:"true"` (string) and `dislike:false` (boolean). -/
theorem mapping_like_dislike_serialization_witness :
    ∃ e ∈ dataList (list_posts db2),
      e.lookup "id" = some (Json.str "p1")
      ∧ ∃ me ∈ umList e,
          me.lookup "id" = some (Json.nat 1)
          ∧ me.lookup "like" = some (Json.str "true")
          ∧ me.lookup "dislike" = some (Json.bool false) :=
  (mapping_like_dislike_serialization db2 t0 mc1).1
    ⟨"p1", "u1", "hello", none, t0, t0⟩ (by decide)
    ⟨1, "u2", "p1", none, true, false, t0, t0⟩ (by decide) rfl

/-- **C8.** Every post object returned by List Posts and Create Post carries
under `createdAt` the ISO-8601 rendering of the stored `created_at`
timestamp with the literal `"Z"` appended, unconditionally (the timestamp's
rendering is arbitrary here, so the append happens whatever offset text it
already ends in). -/
theorem createdAt_trailing_z (db : DB) (now : Timestamp)
    (post : UserPostCreate) :
    (∀ e ∈ dataList (list_posts db),
      ∃ p ∈ db.posts,
        e.lookup "id" = some (Json.str p.id)
        ∧ e.lookup "createdAt" = some (Json.str (p.created_at.iso ++ "Z")))
    ∧ (∀ j db', create_post now post db = (Except.ok j, db') →
        ∀ e ∈ dataList j,
          e.lookup "createdAt" = some (Json.str (now.iso ++ "Z"))) := by
  constructor
  · intro e he
    obtain ⟨p, hp, rfl⟩ := List.mem_map.mp he
    exact ⟨p, hp, rfl, rfl⟩
  · intro j db' heq e he
    cases hfind : db.posts.find? (fun q => q.id == post.id) with
    | some q => simp [create_post, hfind] at heq
    | none =>
      simp [create_post, hfind] at heq
      obtain ⟨rfl, rfl⟩ := heq
      simp only [dataList, Json.lookup] at he
      simp at he
      subst he
      rfl

/-- Witness for C8: the post created at `t0` carries
`createdAt = "2024-01-01T00:00:00Z"` in the Create Post envelope. -/
theorem createdAt_trailing_z_witness :
    (Json.obj [
        ("id", Json.str "p1"),
        ("userId", Json.str "u1"),
        ("content", Json.str "hello"),
        ("imageUrl", Json.null),
        ("userPostmapping", Json.arr []),
        ("createdAt", Json.str "2024-01-01T00:00:00Z")]).lookup "createdAt"
      = some (Json.str "2024-01-01T00:00:00Z") :=
  (createdAt_trailing_z emptyDB t0 pc1).2 _ _ rfl _ (List.Mem.head _)

/-- **C9.** The responder's `user_id` accepted and stored by Create Mapping
is never exposed: no `userPostmapping` entry of the List Posts response and
no data entry of the Create Mapping success envelope carries a `user_id`
key. -/
theorem mapping_user_id_hidden (db : DB) (now : Timestamp)
    (r : UserPostMappingCreate) :
    (∀ e ∈ dataList (list_posts db), ∀ me ∈ umList e,
        me.lookup "user_id" = none)
    ∧ (∀ j db', add_post_response now r db = (Except.ok j, db') →
        ∀ me ∈ dataList j, me.lookup "user_id" = none) := by
  constructor
  · intro e he me hme
    obtain ⟨p, hp, rfl⟩ := List.mem_map.mp he
    obtain ⟨m, hm, rfl⟩ := List.mem_map.mp hme
    rfl
  · intro j db' heq me hme
    cases hfind : db.posts.find? (fun p => p.id == r.post_id) with
    | none => simp [add_post_response, hfind] at heq
    | some q =>
      simp [add_post_response, hfind] at heq
      obtain ⟨rfl, rfl⟩ := heq
      simp only [dataList, Json.lookup] at hme
      simp at hme
      subst hme
      rfl

/-- Witness for C9: the mapping stored with responder `u2` in `db2` is
listed without any `user_id` key. -/
theorem mapping_user_id_hidden_witness :
    (Json.obj [
        ("id", Json.nat 1),
        ("post_id", Json.str "p1"),
        ("comments", Json.null),
        ("like", Json.str "true"),
        ("dislike", Json.bool false)]).lookup "user_id" = none :=
  (mapping_user_id_hidden db2 t0 mc1).1 _ (List.Mem.head _) _ (List.Mem.head _)

/-- Erasing the first post whose id is `X` from a list with pairwise
distinct ids (the primary-key property of the `userposts` table) leaves no
post with id `X`. -/
theorem eraseP_id_ne (X : String) :
    ∀ (l : List UserPost), (l.map (fun p => p.id)).Nodup →
      ∀ p ∈ l.eraseP (fun p => p.id == X), p.id ≠ X := by
  intro l
  induction l with
  | nil => simp
  | cons a t ih =>
    intro hnd p hp
    rw [List.map_cons, List.nodup_cons] at hnd
    by_cases ha : a.id = X
    · rw [List.eraseP_cons_of_pos (by simp [ha])] at hp
      intro hpx
      apply hnd.1
      rw [ha, ← hpx]
      exact List.mem_map_of_mem _ hp
    · rw [List.eraseP_cons_of_neg (by simp [ha])] at hp
      rcases List.mem_cons.mp hp with rfl | hp'
      · exact ha
      · exact ih hnd.2 p hp'

/-- **C1.** When the ids of the stored posts are pairwise distinct (the
primary-key property), `delete_post` on id `X` fails with the 404 NotFound
error if no post with id `X` exists; otherwise it returns the
`{status:"deleted", message}` body with no data payload and the resulting
state holds neither the post nor any mapping referencing it, so the List
Posts rendering of any subsequent call contains neither. -/
theorem delete_post_spec (X : String) (db : DB)
    (hids : (db.posts.map (fun p => p.id)).Nodup) :
    (db.posts.find? (fun p => p.id == X) = none →
      delete_post X db = (Except.error ⟨404, "Post not found"⟩, db))
    ∧ (∀ j db', delete_post X db = (Except.ok j, db') →
        j = Json.obj [("status", Json.str "deleted"),
                      ("message", Json.str "Post deleted successfully.")]
        ∧ (∀ p ∈ db'.posts, p.id ≠ X)
        ∧ (∀ m ∈ db'.mappings, m.post_id ≠ X)
        ∧ (∀ e ∈ dataList (list_posts db'),
            e.lookup "id" ≠ some (Json.str X)
            ∧ ∀ me ∈ umList e, me.lookup "post_id" ≠ some (Json.str X))) := by
  constructor
  · intro hnone
    simp [delete_post, hnone]
  · intro j db' heq
    cases hfind : db.posts.find? (fun p => p.id == X) with
    | none => simp [delete_post, hfind] at heq
    | some q =>
      simp [delete_post, hfind] at heq
      obtain ⟨rfl, rfl⟩ := heq
      refine ⟨rfl, eraseP_id_ne X db.posts hids, ?_, ?_⟩
      · intro m hm
        simpa using (List.mem_filter.mp hm).2
      · intro e he
        obtain ⟨p, hp, rfl⟩ := List.mem_map.mp he
        have hpne : p.id ≠ X := eraseP_id_ne X db.posts hids p hp
        constructor
        · intro hcon
          apply hpne
          simpa [Json.lookup] using hcon
        · intro me hme
          obtain ⟨m, hm, rfl⟩ := List.mem_map.mp hme
          have hmx : m.post_id ≠ X := by
            simpa using (List.mem_filter.mp (List.mem_filter.mp hm).1).2
          intro hcon
          apply hmx
          simpa [Json.lookup] using hcon

/-- Witness for C1: deleting the absent id `nope` from `db2` fails with 404
and leaves the state untouched. -/
theorem delete_post_spec_witness :
    delete_post "nope" db2 = (Except.error ⟨404, "Post not found"⟩, db2) :=
  (delete_post_spec "nope" db2 (by decide)).1 (by decide)

/-- **C2.** Referential integrity is an invariant of the system: in every
state reachable from the empty database by the exposed operations, every
stored mapping's `post_id` references a stored post. -/
theorem reachable_referential_integrity (db : DB) (h : Reachable db) :
    refIntegrityB db = true := by
  induction h with
  | empty => rfl
  | step_create db now p hdb ih =>
    cases hfind : db.posts.find? (fun q => q.id == p.id) with
    | some q => simpa [create_post, hfind] using ih
    | none =>
      simp only [refIntegrityB, List.all_eq_true, List.any_eq_true] at ih ⊢
      simp only [create_post, hfind]
      intro m hm
      obtain ⟨q, hq, hqid⟩ := ih m hm
      exact ⟨q, List.mem_append_left _ hq, hqid⟩
  | step_mapping db now r hdb ih =>
    cases hfind : db.posts.find? (fun q => q.id == r.post_id) with
    | none => simpa [add_post_response, hfind] using ih
    | some q =>
      simp only [refIntegrityB, List.all_eq_true, List.any_eq_true] at ih ⊢
      simp only [add_post_response, hfind]
      intro m hm
      rcases List.mem_append.mp hm with hm' | hm'
      · exact ih m hm'
      · rcases List.mem_singleton.mp hm' with rfl
        exact ⟨q, List.mem_of_find?_eq_some hfind,
          by simpa using List.find?_some hfind⟩
  | step_delete db X hdb ih =>
    cases hfind : db.posts.find? (fun p => p.id == X) with
    | none => simpa [delete_post, hfind] using ih
    | some q =>
      simp only [refIntegrityB, List.all_eq_true, List.any_eq_true] at ih ⊢
      simp only [delete_post, hfind]
      intro m hm
      have hmem := List.mem_filter.mp hm
      obtain ⟨p, hp, hpid⟩ := ih m hmem.1
      have hpm : p.id = m.post_id := by simpa using hpid
      have hmx : m.post_id ≠ X := by simpa using hmem.2
      refine ⟨p, ?_, hpid⟩
      rw [List.mem_eraseP_of_neg]
      · exact hp
      · simp [hpm, hmx]

/-- Witness for C2: the state reached by creating `p1` and then recording
`u2`'s like satisfies referential integrity. -/
theorem reachable_referential_integrity_witness :
    refIntegrityB db2 = true :=
  reachable_referential_integrity db2
    (Reachable.step_mapping db1 t0 mc1
      (Reachable.step_create emptyDB t0 pc1 Reachable.empty))

end UserPosts
